import Mathlib

/-!
Shallow embedding of the HTTP conditional-request cache-validation logic of
`src/packages/http/config/features/channels/settings.channel.ts` (class
`SettingsChannel`), together with theorems checking the specification's claims
about it.

Modelling conventions:
* TypeScript strings are Lean `String`s; `split(',')` is `jsSplitOnComma` and
  `trim()` is `jsTrim`, structural character-list implementations of the JS
  operations (kept structural so concrete instances evaluate by `decide`).
* Header maps (`ctx.header`) are association lists from lowercase header names
  to string values; `get` returns the first binding, `set` replaces the
  binding, `remove` drops it.  A header value is JS-truthy iff it is present
  and non-empty, so an absent header and a present-but-empty one are both
  "falsy"; `truthyOpt` captures this.
* `new Date(s)` / `isNaN(date.getTime())` (the body of the private
  `parseDate`) is a JS built-in; it is abstracted as an environment function
  `parseDate : String → Option Int` returning the timestamp on success and
  `none` when the string does not parse (the `isNaN` branch).
* `generateETag` is imported from `../utils`, which is not part of the
  provided sources; it is modelled from the spec (see its doc comment) with
  the hash itself abstracted as an environment function.
* JS mutation of `ctx` becomes explicit state passing: functions return the
  updated `HttpContext`, paired with a `ValidationOutcome` recording whether
  `sendNotModified` was invoked (`NotModified`) or the function fell through
  (`Continue`).
-/

namespace Gland

/-- EntityTagStrength from `../../../types` (not in the sources); per the
spec, strength ∈ {strong, weak}. -/
inductive EntityTagStrength
  | strong
  | weak
deriving DecidableEq, Repr

/-- EntityTagAlgorithm from `../../../types` (not in the sources); per the
spec, a named hash algorithm, e.g. sha256 / md5 / sha1. -/
inductive EntityTagAlgorithm
  | sha256
  | md5
  | sha1
deriving DecidableEq, Repr

/-- Outcome of the validation step: `Continue` when the engine falls through
without short-circuiting, `NotModified` when `sendNotModified` rewrote the
response to 304. -/
inductive ValidationOutcome
  | Continue
  | NotModified
deriving DecidableEq, Repr

/-- Request/response context: the parts of `HttpContext` (from
`../../../interface`) that `SettingsChannel` reads or writes.  `body` is
`none` for a null/absent body; headers are an association list keyed by
lowercase header names. -/
structure HttpContext where
  method : String
  status : Nat
  body : Option String
  headers : List (String × String)
deriving DecidableEq, Repr

/-- Snapshot of the client validators taken in `createMiddleware` before
`next()` runs (lines 24-27 of the source). -/
structure ClientValidation where
  etag : Option String
  modifiedSince : Option String
deriving DecidableEq, Repr

/-- Per-channel environment: the configuration read in the constructor
(`strength`, `algorithm`) plus the two abstracted primitives (the hash used by
`generateETag` and the JS `Date` parser used by `parseDate`). -/
structure ValidationEnv where
  hashHex : EntityTagAlgorithm → Option String → String
  parseDate : String → Option Int
  algorithm : EntityTagAlgorithm
  strength : EntityTagStrength

/-- JS truthiness of an optional header/body string: truthy iff present and
non-empty. -/
def truthyOpt : Option String → Bool
  | none => false
  | some s => decide (s ≠ "")

/-- Lookup of `ctx.header.get(k)`: first binding with the given name. -/
def headerGet (hs : List (String × String)) (k : String) : Option String :=
  (hs.find? (fun p => p.1 = k)).map Prod.snd

/-- `ctx.header.set(k, v)`: bind `k` to `v`, replacing any previous binding. -/
def headerSet (hs : List (String × String)) (k v : String) : List (String × String) :=
  (k, v) :: hs.filter (fun p => p.1 ≠ k)

/-- `ctx.header.remove(k)`: drop the binding for `k`. -/
def headerRemove (hs : List (String × String)) (k : String) : List (String × String) :=
  hs.filter (fun p => p.1 ≠ k)

/-- Structural model of the JS `String.prototype.split` with a single-character
separator: split the character list at every occurrence of `sep`.  Empty input
yields `[[]]` and separators at the ends yield empty segments, exactly as in
JS (`''.split(',') = ['']`, `'a,'.split(',') = ['a','']`).  No produced
segment contains `sep`. -/
def splitOnChar (sep : Char) : List Char → List (List Char)
  | [] => [[]]
  | c :: rest =>
    match splitOnChar sep rest with
    | h :: t => if c = sep then [] :: h :: t else (c :: h) :: t
    | [] => [[c]]

/-- JS `raw.split(',')` on strings, via `splitOnChar`. -/
def jsSplitOnComma (s : String) : List String :=
  (splitOnChar ',' s.data).map String.mk

/-- Structural model of JS `String.prototype.trim`: drop whitespace characters
from both ends.  (The precise whitespace sets of JS and Lean differ only on
exotic Unicode characters irrelevant to the claims.) -/
def jsTrim (s : String) : String :=
  String.mk (((s.data.dropWhile Char.isWhitespace).reverse.dropWhile
    Char.isWhitespace).reverse)

/-- JS `s.includes(',')`: the string has a comma among its characters. -/
def containsComma (s : String) : Bool :=
  decide (',' ∈ s.data)

/-- Modelled from the spec: `generateETag` lives in `config/utils`, which is
not among the provided sources.  Spec §4.1: hash the body with the selected
algorithm, hex-encode the digest, wrap the hex as `"<hex>"` when strength is
strong or `W/"<hex>"` when weak; an empty or absent body still hashes (the
empty-content digest).  The hash-plus-hex-encode step is abstracted as the
environment function `hashHex`. -/
def generateETag (hashHex : EntityTagAlgorithm → Option String → String)
    (body : Option String) (algorithm : EntityTagAlgorithm)
    (strength : EntityTagStrength) : String :=
  let hex := hashHex algorithm body
  match strength with
  | EntityTagStrength.strong => "\"" ++ hex ++ "\""
  | EntityTagStrength.weak => "W/\"" ++ hex ++ "\""

/-- Strip a leading weak marker matching the regex `/^W\//i` (case-insensitive)
from a character list: used by the private `normalizeETag` (line 89). -/
def stripWeakCI (l : List Char) : List Char :=
  match l with
  | c :: d :: rest => if (c = 'W' ∨ c = 'w') ∧ d = '/' then rest else l
  | _ => l

/-- Strip a leading weak marker matching the regex `/^W\//` (case-SENSITIVE:
the source's second normalizer, `normalize` at line 119, omits the `i` flag)
from a character list. -/
def stripWeakCS (l : List Char) : List Char :=
  match l with
  | c :: d :: rest => if c = 'W' ∧ d = '/' then rest else l
  | _ => l

/-- `normalizeETag` (line 88-90): `etag.replace(/^W\//i, '').replace(/"/g, '')` —
strip a leading `W/` case-insensitively, then delete every double-quote
character. -/
def normalizeETag (s : String) : String :=
  String.mk ((stripWeakCI s.data).filter (fun c => c ≠ '"'))

/-- The private `normalize` (lines 118-120): `etag.replace(/^W\//, '')
.replace(/"/g, '')` — same as `normalizeETag` except the weak marker is
stripped case-sensitively (only an uppercase `W/`). -/
def normalize (s : String) : String :=
  String.mk ((stripWeakCS s.data).filter (fun c => c ≠ '"'))

/-- `anyETagMatches` (lines 75-80): some element is the literal `*`, or is
normalized-equal to the server tag. -/
def anyETagMatches (clientETags : List String) (serverETag : String) : Bool :=
  clientETags.any (fun clientETag =>
    if clientETag = "*" then true
    else decide (normalizeETag clientETag = normalizeETag serverETag))

/-- Decomposition of a raw `If-None-Match` header value as done at lines 50-54
of the source: split on commas and trim each element. -/
def splitClientETags (raw : String) : List String :=
  (jsSplitOnComma raw).map jsTrim

/-- The pipeline-level comparator: raw `If-None-Match` value against the
server tag, composing the list decomposition of lines 50-53 with
`anyETagMatches` of line 54. -/
def rawAnyMatches (raw : String) (serverETag : String) : Bool :=
  anyETagMatches (splitClientETags raw) serverETag

/-- `sendNotModified` (lines 82-87): status 304, body null, remove the
`content-type` and `content-length` headers. -/
def sendNotModified (ctx : HttpContext) : HttpContext :=
  { ctx with
    status := 304
    body := none
    headers := headerRemove (headerRemove ctx.headers "content-type") "content-length" }

/-- Line 45-46 of `handleCacheValidation`: generate the fingerprint from the
response body and attach it as the `etag` response header. -/
def setResponseETag (env : ValidationEnv) (ctx : HttpContext) : HttpContext :=
  { ctx with
    headers := headerSet ctx.headers "etag"
      (generateETag env.hashHex ctx.body env.algorithm env.strength) }

/-- Lines 61-72 of `handleCacheValidation`: the Last-Modified validation.
Runs only when the client supplied a truthy `If-Modified-Since` and the
response carries a truthy `last-modified` header; both are parsed, and a 304
is sent iff both parse and lastModified ≤ modifiedSince. -/
def dateCheck (env : ValidationEnv) (ctx1 : HttpContext) (cv : ClientValidation) :
    ValidationOutcome × HttpContext :=
  if truthyOpt cv.modifiedSince then
    if truthyOpt (headerGet ctx1.headers "last-modified") then
      match env.parseDate ((headerGet ctx1.headers "last-modified").getD ""),
            env.parseDate (cv.modifiedSince.getD "") with
      | some lastModified, some modifiedSince =>
        if lastModified ≤ modifiedSince then
          (ValidationOutcome.NotModified, sendNotModified ctx1)
        else (ValidationOutcome.Continue, ctx1)
      | _, _ => (ValidationOutcome.Continue, ctx1)
    else (ValidationOutcome.Continue, ctx1)
  else (ValidationOutcome.Continue, ctx1)

/-- `handleCacheValidation` (lines 37-73): attach the generated fingerprint,
then run the ETag validation (sending 304 and returning on a match) and
otherwise fall through to the Last-Modified validation. -/
def handleCacheValidation (env : ValidationEnv) (ctx : HttpContext)
    (cv : ClientValidation) : ValidationOutcome × HttpContext :=
  let serverETag := generateETag env.hashHex ctx.body env.algorithm env.strength
  let ctx1 := setResponseETag env ctx
  if truthyOpt cv.etag then
    if anyETagMatches (splitClientETags (cv.etag.getD "")) serverETag then
      (ValidationOutcome.NotModified, sendNotModified ctx1)
    else dateCheck env ctx1 cv
  else dateCheck env ctx1 cv

/-- `shouldProcessValidation` (lines 122-124): GET/HEAD, status in [200,300),
truthy body, and no truthy `etag` header already on the response. -/
def shouldProcessValidation (ctx : HttpContext) : Bool :=
  (decide (ctx.method = "GET") || decide (ctx.method = "HEAD"))
    && decide (200 ≤ ctx.status) && decide (ctx.status < 300)
    && truthyOpt ctx.body
    && !(truthyOpt (headerGet ctx.headers "etag"))

/-- The post-`next()` tail of the middleware (lines 31-34): invoke
`handleCacheValidation` only when `shouldProcessValidation` holds, otherwise
leave the context untouched. -/
def processValidation (env : ValidationEnv) (ctx : HttpContext)
    (cv : ClientValidation) : ValidationOutcome × HttpContext :=
  if shouldProcessValidation ctx then handleCacheValidation env ctx cv
  else (ValidationOutcome.Continue, ctx)

/-- One level of `compareETags` (lines 100-113) on a single (comma-free) tag:
the falsy guard, the wildcard, and the case-sensitive normalized equality.
`String.splitOn ","` elements never contain the separator, so the source's
recursion on a comma-containing value always reaches this base case after one
decomposition. -/
def compareETagsOne (clientETag serverETag : String) : Bool :=
  if clientETag = "" || serverETag = "" then false
  else if clientETag = "*" then true
  else decide (normalize clientETag = normalize serverETag)

/-- The public `compareETags` (lines 100-113): falsy guard, wildcard, list
decomposition on commas (recursing once into `compareETagsOne`), otherwise
case-sensitive normalized equality. -/
def compareETags (clientETag serverETag : String) : Bool :=
  if clientETag = "" || serverETag = "" then false
  else if clientETag = "*" then true
  else if containsComma clientETag then
    ((jsSplitOnComma clientETag).map jsTrim).any
      (fun tag => compareETagsOne tag serverETag)
  else decide (normalize clientETag = normalize serverETag)

/-- A sample environment with concrete hash and date-parse functions, used
only to evaluate witnesses on concrete inputs. -/
def sampleEnv : ValidationEnv where
  hashHex := fun _ _ => "2cf24dba5fb0a30e"
  parseDate := fun s =>
    if s = "Tue, 31 Dec 2019 00:00:00 GMT" then some 1577750400
    else if s = "Wed, 01 Jan 2020 00:00:00 GMT" then some 1577836800
    else if s = "Thu, 02 Jan 2020 00:00:00 GMT" then some 1577923200
    else none
  algorithm := EntityTagAlgorithm.sha256
  strength := EntityTagStrength.strong

/-- Concrete eligible GET context used to evaluate witnesses. -/
def ctxW : HttpContext where
  method := "GET"
  status := 200
  body := some "hello"
  headers := [("content-type", "text/plain"), ("content-length", "5"),
              ("last-modified", "Tue, 31 Dec 2019 00:00:00 GMT"),
              ("x-powered-by", "gland")]

/-- Concrete client validators whose ETag matches the fingerprint that
`sampleEnv` generates for `ctxW`. -/
def cvW : ClientValidation where
  etag := some "\"2cf24dba5fb0a30e\""
  modifiedSince := some "Wed, 01 Jan 2020 00:00:00 GMT"

/-- Concrete client validators whose ETag does not match the fingerprint that
`sampleEnv` generates, with a parsable `If-Modified-Since`. -/
def cvMismatch : ClientValidation where
  etag := some "\"stale\""
  modifiedSince := some "Wed, 01 Jan 2020 00:00:00 GMT"

/-- Concrete client validators with no ETag and an unparsable
`If-Modified-Since`. -/
def cvBadDate : ClientValidation where
  etag := none
  modifiedSince := some "not-a-date"

/-! ## Helper lemmas about the header association list -/

theorem find?_and_ne (t : List (String × String)) (k k' : String) (h : k' ≠ k) :
    List.find? (fun a => !decide (a.1 = k) && decide (a.1 = k')) t
      = List.find? (fun p => decide (p.1 = k')) t := by
  congr 1
  funext a
  by_cases ha : a.1 = k'
  · simp [ha, h]
  · simp [ha]

theorem headerGet_set_self (hs : List (String × String)) (k v : String) :
    headerGet (headerSet hs k v) k = some v := by
  simp [headerGet, headerSet, List.find?_cons]

theorem headerGet_set_ne (hs : List (String × String)) (k v k' : String)
    (h : k' ≠ k) : headerGet (headerSet hs k v) k' = headerGet hs k' := by
  simp [headerGet, headerSet, List.find?_cons, Ne.symm h,
    List.find?_filter, find?_and_ne hs k k' h]

theorem headerGet_remove_self (hs : List (String × String)) (k : String) :
    headerGet (headerRemove hs k) k = none := by
  have hnone : (hs.filter (fun p => p.1 ≠ k)).find? (fun p => p.1 = k) = none := by
    rw [List.find?_eq_none]
    intro a ha
    have := List.of_mem_filter ha
    simpa using this
  unfold headerGet headerRemove
  rw [hnone]
  rfl

theorem headerGet_remove_ne (hs : List (String × String)) (k k' : String)
    (h : k' ≠ k) : headerGet (headerRemove hs k) k' = headerGet hs k' := by
  simp [headerGet, headerRemove, List.find?_filter, find?_and_ne hs k k' h]

/-! ## Helper lemmas about the engine's control flow -/

/-- The date check either falls through with the context untouched or rewrites
it via `sendNotModified`. -/
theorem dateCheck_cases (env : ValidationEnv) (ctx1 : HttpContext)
    (cv : ClientValidation) :
    dateCheck env ctx1 cv = (ValidationOutcome.Continue, ctx1)
    ∨ dateCheck env ctx1 cv = (ValidationOutcome.NotModified, sendNotModified ctx1) := by
  unfold dateCheck
  repeat' split
  all_goals simp

/-- The engine either falls through with the fingerprint attached and the rest
of the context untouched, or rewrites that same context via
`sendNotModified`. -/
theorem handleCacheValidation_cases (env : ValidationEnv) (ctx : HttpContext)
    (cv : ClientValidation) :
    handleCacheValidation env ctx cv
        = (ValidationOutcome.Continue, setResponseETag env ctx)
    ∨ handleCacheValidation env ctx cv
        = (ValidationOutcome.NotModified, sendNotModified (setResponseETag env ctx)) := by
  unfold handleCacheValidation
  by_cases h1 : truthyOpt cv.etag = true
  · simp only [h1, if_true]
    by_cases h2 : anyETagMatches (splitClientETags (cv.etag.getD ""))
        (generateETag env.hashHex ctx.body env.algorithm env.strength) = true
    · simp [h2]
    · simp only [Bool.not_eq_true] at h2
      simp only [h2, Bool.false_eq_true, if_false]
      exact dateCheck_cases env (setResponseETag env ctx) cv
  · simp only [Bool.not_eq_true] at h1
    simp only [h1, Bool.false_eq_true, if_false]
    exact dateCheck_cases env (setResponseETag env ctx) cv

/-- When no ETag match fires (either no truthy `If-None-Match` was supplied,
or it was supplied but did not match), `handleCacheValidation` reduces to the
date check on the context with the fingerprint attached. -/
theorem handleCacheValidation_eq_dateCheck (env : ValidationEnv)
    (ctx : HttpContext) (cv : ClientValidation)
    (hnm : truthyOpt cv.etag = true →
      anyETagMatches (splitClientETags (cv.etag.getD ""))
        (generateETag env.hashHex ctx.body env.algorithm env.strength) = false) :
    handleCacheValidation env ctx cv = dateCheck env (setResponseETag env ctx) cv := by
  unfold handleCacheValidation
  by_cases h1 : truthyOpt cv.etag = true
  · simp [h1, hnm h1]
  · simp only [Bool.not_eq_true] at h1
    simp [h1]

/-- Reduction of the date check when both validators are truthy and both
parse: the outcome is decided by the timestamp comparison. -/
theorem dateCheck_parsed (env : ValidationEnv) (ctx1 : HttpContext)
    (cv : ClientValidation) (hms : truthyOpt cv.modifiedSince = true)
    (lm : String) (hlm : headerGet ctx1.headers "last-modified" = some lm)
    (hne : lm ≠ "") (l i : Int) (hpl : env.parseDate lm = some l)
    (hpi : env.parseDate (cv.modifiedSince.getD "") = some i) :
    dateCheck env ctx1 cv
      = if l ≤ i then (ValidationOutcome.NotModified, sendNotModified ctx1)
        else (ValidationOutcome.Continue, ctx1) := by
  unfold dateCheck
  rw [hlm]
  simp only [hms, if_true]
  simp [truthyOpt, hne, hpl, hpi]

/-- Reduction of the date check when both validators are truthy but a parse
fails: the check is skipped and the engine falls through. -/
theorem dateCheck_parse_failure (env : ValidationEnv) (ctx1 : HttpContext)
    (cv : ClientValidation) (lm : String)
    (hlm : headerGet ctx1.headers "last-modified" = some lm)
    (hfail : env.parseDate lm = none
      ∨ env.parseDate (cv.modifiedSince.getD "") = none) :
    dateCheck env ctx1 cv = (ValidationOutcome.Continue, ctx1) := by
  unfold dateCheck
  rw [hlm]
  rcases hfail with hf | hf
  · rcases h2 : env.parseDate (cv.modifiedSince.getD "") with _ | i <;>
      simp [hf, h2]
  · rcases h1 : env.parseDate lm with _ | l <;> simp [hf, h1]

/-! ## Claim theorems -/

/-- C1: when the request method is not GET or HEAD, or the response status is
outside [200,300), or the response body is empty or absent, or a (truthy)
fingerprint header is already present on the response, the validation step is
skipped entirely: no fingerprint is generated, no ETag header is attached, and
the context is returned untouched with outcome `Continue`.  (An empty-valued
`etag` header is JS-falsy and therefore modelled as absent, matching the
source's `!ctx.header.get('etag')` test.) -/
theorem c1_ineligible_skips_validation (env : ValidationEnv)
    (ctx : HttpContext) (cv : ClientValidation)
    (h : (ctx.method ≠ "GET" ∧ ctx.method ≠ "HEAD")
      ∨ ctx.status < 200 ∨ 300 ≤ ctx.status
      ∨ truthyOpt ctx.body = false
      ∨ truthyOpt (headerGet ctx.headers "etag") = true) :
    processValidation env ctx cv = (ValidationOutcome.Continue, ctx) := by
  have hs : shouldProcessValidation ctx = false := by
    unfold shouldProcessValidation
    rcases h with ⟨h1, h2⟩ | h | h | h | h
    · simp [h1, h2]
    · have : ¬ (200 ≤ ctx.status) := by omega
      simp [this]
    · have : ¬ (ctx.status < 300) := by omega
      simp [this]
    · simp [h]
    · simp [h]
  simp [processValidation, hs]

/-- C1 witness: a POST request is left untouched with outcome `Continue`. -/
theorem c1_witness :
    processValidation sampleEnv { ctxW with method := "POST" } cvW
      = (ValidationOutcome.Continue, { ctxW with method := "POST" }) :=
  c1_ineligible_skips_validation sampleEnv { ctxW with method := "POST" } cvW
    (Or.inl (by decide))

/-- C2: when the client supplied a (truthy) `If-None-Match` value and the
comparator matches it against the freshly generated fingerprint, the outcome
is `NotModified` immediately, for EVERY date-parse function and EVERY
`If-Modified-Since` value: the ETag check takes precedence and the
Last-Modified / If-Modified-Since date check is never evaluated. -/
theorem c2_etag_match_short_circuits (env : ValidationEnv)
    (p : String → Option Int) (m : Option String) (ctx : HttpContext)
    (cv : ClientValidation) (he : truthyOpt cv.etag = true)
    (hm : anyETagMatches (splitClientETags (cv.etag.getD ""))
      (generateETag env.hashHex ctx.body env.algorithm env.strength) = true) :
    handleCacheValidation { env with parseDate := p } ctx
        { cv with modifiedSince := m }
      = (ValidationOutcome.NotModified, sendNotModified (setResponseETag env ctx)) := by
  unfold handleCacheValidation
  simp [he, hm, setResponseETag]

/-- C2 witness: a matching `If-None-Match` yields `NotModified` with the
date-parse function replaced by one that never parses and no
`If-Modified-Since` at all. -/
theorem c2_witness :
    handleCacheValidation { sampleEnv with parseDate := fun _ => none } ctxW
        { cvW with modifiedSince := none }
      = (ValidationOutcome.NotModified, sendNotModified (setResponseETag sampleEnv ctxW)) :=
  c2_etag_match_short_circuits sampleEnv (fun _ => none) none ctxW cvW
    (by decide) (by decide)

/-- C3: when the client supplied a (truthy) `If-None-Match` that does NOT
match the generated fingerprint, the engine falls through to the
Last-Modified check: with a truthy `last-modified` response header, a truthy
`If-Modified-Since`, both parsing, and lastModified ≤ modifiedSince, the
outcome is still `NotModified` despite the ETag mismatch. -/
theorem c3_etag_mismatch_falls_through (env : ValidationEnv)
    (ctx : HttpContext) (cv : ClientValidation)
    (_he : truthyOpt cv.etag = true)
    (hnm : anyETagMatches (splitClientETags (cv.etag.getD ""))
      (generateETag env.hashHex ctx.body env.algorithm env.strength) = false)
    (hms : truthyOpt cv.modifiedSince = true) (lm : String)
    (hlm : headerGet ctx.headers "last-modified" = some lm) (hne : lm ≠ "")
    (l i : Int) (hpl : env.parseDate lm = some l)
    (hpi : env.parseDate (cv.modifiedSince.getD "") = some i) (hle : l ≤ i) :
    handleCacheValidation env ctx cv
      = (ValidationOutcome.NotModified, sendNotModified (setResponseETag env ctx)) := by
  rw [handleCacheValidation_eq_dateCheck env ctx cv (fun _ => hnm)]
  have hlm1 : headerGet (setResponseETag env ctx).headers "last-modified" = some lm := by
    rw [setResponseETag]
    rw [headerGet_set_ne _ _ _ _ (by decide)]
    exact hlm
  rw [dateCheck_parsed env _ cv hms lm hlm1 hne l i hpl hpi]
  simp [hle]

/-- C3 witness: stale client ETag, but `Last-Modified` (31 Dec 2019) is not
newer than `If-Modified-Since` (1 Jan 2020), so the outcome is `NotModified`. -/
theorem c3_witness :
    handleCacheValidation sampleEnv ctxW cvMismatch
      = (ValidationOutcome.NotModified, sendNotModified (setResponseETag sampleEnv ctxW)) :=
  c3_etag_mismatch_falls_through sampleEnv ctxW cvMismatch (by decide)
    (by decide) (by decide) "Tue, 31 Dec 2019 00:00:00 GMT" (by decide)
    (by decide) 1577750400 1577836800 (by decide) (by decide) (by decide)

/-- C4: when no ETag match occurred (no truthy `If-None-Match`, or one that
does not match), the client supplied a truthy `If-Modified-Since`, the
response carries a truthy `last-modified` header, and both values parse, the
outcome is `NotModified` exactly when lastModified ≤ modifiedSince (equality
included), and `Continue` exactly when lastModified is strictly newer. -/
theorem c4_date_comparison_decides (env : ValidationEnv) (ctx : HttpContext)
    (cv : ClientValidation)
    (hnm : truthyOpt cv.etag = true →
      anyETagMatches (splitClientETags (cv.etag.getD ""))
        (generateETag env.hashHex ctx.body env.algorithm env.strength) = false)
    (hms : truthyOpt cv.modifiedSince = true) (lm : String)
    (hlm : headerGet ctx.headers "last-modified" = some lm) (hne : lm ≠ "")
    (l i : Int) (hpl : env.parseDate lm = some l)
    (hpi : env.parseDate (cv.modifiedSince.getD "") = some i) :
    ((handleCacheValidation env ctx cv).1 = ValidationOutcome.NotModified ↔ l ≤ i)
    ∧ ((handleCacheValidation env ctx cv).1 = ValidationOutcome.Continue ↔ i < l) := by
  rw [handleCacheValidation_eq_dateCheck env ctx cv hnm]
  have hlm1 : headerGet (setResponseETag env ctx).headers "last-modified" = some lm := by
    rw [setResponseETag]
    rw [headerGet_set_ne _ _ _ _ (by decide)]
    exact hlm
  rw [dateCheck_parsed env _ cv hms lm hlm1 hne l i hpl hpi]
  by_cases hle : l ≤ i <;> simp [hle] <;> omega

/-- C4 witness: with `Last-Modified` parsing to 1577750400 and
`If-Modified-Since` to 1577836800, the outcome is `NotModified` (≤ holds) and
not `Continue`. -/
theorem c4_witness :
    ((handleCacheValidation sampleEnv ctxW cvMismatch).1
        = ValidationOutcome.NotModified ↔ (1577750400 : Int) ≤ 1577836800)
    ∧ ((handleCacheValidation sampleEnv ctxW cvMismatch).1
        = ValidationOutcome.Continue ↔ (1577836800 : Int) < 1577750400) :=
  c4_date_comparison_decides sampleEnv ctxW cvMismatch (fun _ => by decide)
    (by decide) "Tue, 31 Dec 2019 00:00:00 GMT" (by decide) (by decide)
    1577750400 1577836800 (by decide) (by decide)

/-- C5: when no ETag match occurred and the client supplied a truthy
`If-Modified-Since`, but the `last-modified` header value or the
`If-Modified-Since` value fails to parse as a date, the date check is skipped:
the unparsable date is never treated as a match and the engine degrades to
outcome `Continue`, returning the context with only the fingerprint attached
(no exception is modelled: the embedding is a total function). -/
theorem c5_unparsable_date_continues (env : ValidationEnv) (ctx : HttpContext)
    (cv : ClientValidation)
    (hnm : truthyOpt cv.etag = true →
      anyETagMatches (splitClientETags (cv.etag.getD ""))
        (generateETag env.hashHex ctx.body env.algorithm env.strength) = false)
    (lm : String)
    (hlm : headerGet ctx.headers "last-modified" = some lm)
    (hfail : env.parseDate lm = none
      ∨ env.parseDate (cv.modifiedSince.getD "") = none) :
    handleCacheValidation env ctx cv
      = (ValidationOutcome.Continue, setResponseETag env ctx) := by
  rw [handleCacheValidation_eq_dateCheck env ctx cv hnm]
  have hlm1 : headerGet (setResponseETag env ctx).headers "last-modified" = some lm := by
    rw [setResponseETag]
    rw [headerGet_set_ne _ _ _ _ (by decide)]
    exact hlm
  exact dateCheck_parse_failure env _ cv lm hlm1 hfail

/-- C5 witness: `If-Modified-Since: not-a-date` does not parse, so the engine
falls through with outcome `Continue`. -/
theorem c5_witness :
    handleCacheValidation sampleEnv ctxW cvBadDate
      = (ValidationOutcome.Continue, setResponseETag sampleEnv ctxW) :=
  c5_unparsable_date_continues sampleEnv ctxW cvBadDate (fun h => by simp [cvBadDate, truthyOpt] at h)
    "Tue, 31 Dec 2019 00:00:00 GMT" (by decide) (Or.inr (by decide))

/-! ## String-normalization lemmas for the comparator claims -/

theorem data_quoted (x : String) :
    ("\"" ++ x ++ "\"").data = '"' :: (x.data ++ ['"']) := by
  simp [String.data_append]

theorem data_weak_quoted (x : String) :
    ("W/\"" ++ x ++ "\"").data = 'W' :: '/' :: '"' :: (x.data ++ ['"']) := by
  simp [String.data_append]

theorem data_weak_lower_quoted (x : String) :
    ("w/\"" ++ x ++ "\"").data = 'w' :: '/' :: '"' :: (x.data ++ ['"']) := by
  simp [String.data_append]

theorem stripWeakCI_quote (t : List Char) : stripWeakCI ('"' :: t) = '"' :: t := by
  cases t with
  | nil => rfl
  | cons d t' =>
    have h : ¬ ((('"' : Char) = 'W' ∨ ('"' : Char) = 'w') ∧ d = '/') := by
      rintro ⟨hc, -⟩
      rcases hc with hc | hc <;> exact absurd hc (by decide)
    simp [stripWeakCI, h]

theorem stripWeakCS_quote (t : List Char) : stripWeakCS ('"' :: t) = '"' :: t := by
  cases t with
  | nil => rfl
  | cons d t' =>
    have h : ¬ ((('"' : Char) = 'W') ∧ d = '/') := by
      rintro ⟨hc, -⟩
      exact absurd hc (by decide)
    simp [stripWeakCS, h]

theorem filter_quoted (x : String) :
    (('"' :: (x.data ++ ['"'])).filter (fun c => c ≠ '"'))
      = x.data.filter (fun c => c ≠ '"') := by
  simp

/-- Normalizing a strong tag `"x"` (case-insensitive entry point) yields the
identifier with its quote characters removed. -/
theorem normalizeETag_quoted (x : String) :
    normalizeETag ("\"" ++ x ++ "\"")
      = String.mk (x.data.filter (fun c => c ≠ '"')) := by
  unfold normalizeETag
  rw [data_quoted, stripWeakCI_quote, filter_quoted]

/-- Normalizing a weak tag `W/"x"` (case-insensitive entry point) yields the
same string as normalizing the strong tag `"x"`. -/
theorem normalizeETag_weak_quoted (x : String) :
    normalizeETag ("W/\"" ++ x ++ "\"")
      = String.mk (x.data.filter (fun c => c ≠ '"')) := by
  unfold normalizeETag
  rw [data_weak_quoted]
  have : stripWeakCI ('W' :: '/' :: '"' :: (x.data ++ ['"']))
      = '"' :: (x.data ++ ['"']) := by
    simp [stripWeakCI]
  rw [this, filter_quoted]

/-- Normalizing a lowercase weak tag `w/"x"` (case-insensitive entry point)
also yields the bare identifier. -/
theorem normalizeETag_weak_lower_quoted (x : String) :
    normalizeETag ("w/\"" ++ x ++ "\"")
      = String.mk (x.data.filter (fun c => c ≠ '"')) := by
  unfold normalizeETag
  rw [data_weak_lower_quoted]
  have : stripWeakCI ('w' :: '/' :: '"' :: (x.data ++ ['"']))
      = '"' :: (x.data ++ ['"']) := by
    simp [stripWeakCI]
  rw [this, filter_quoted]

/-- Normalizing a strong tag via the case-SENSITIVE `normalize` also yields
the bare identifier. -/
theorem normalize_quoted (x : String) :
    normalize ("\"" ++ x ++ "\"")
      = String.mk (x.data.filter (fun c => c ≠ '"')) := by
  unfold normalize
  rw [data_quoted, stripWeakCS_quote, filter_quoted]

/-- Normalizing an uppercase weak tag via the case-SENSITIVE `normalize`
yields the bare identifier. -/
theorem normalize_weak_quoted (x : String) :
    normalize ("W/\"" ++ x ++ "\"")
      = String.mk (x.data.filter (fun c => c ≠ '"')) := by
  unfold normalize
  rw [data_weak_quoted]
  have : stripWeakCS ('W' :: '/' :: '"' :: (x.data ++ ['"']))
      = '"' :: (x.data ++ ['"']) := by
    simp [stripWeakCS]
  rw [this, filter_quoted]

theorem quoted_ne_empty (x : String) : ("\"" ++ x ++ "\"") ≠ "" := by
  intro h
  have hd := congrArg String.data h
  rw [data_quoted] at hd
  simp at hd

theorem weak_quoted_ne_empty (x : String) : ("W/\"" ++ x ++ "\"") ≠ "" := by
  intro h
  have hd := congrArg String.data h
  rw [data_weak_quoted] at hd
  simp at hd

theorem quoted_ne_star (x : String) : ("\"" ++ x ++ "\"") ≠ "*" := by
  intro h
  have hd := congrArg String.data h
  rw [data_quoted, show ("*" : String).data = ['*'] from rfl] at hd
  have hh := congrArg List.head? hd
  simp at hh

theorem weak_quoted_ne_star (x : String) : ("W/\"" ++ x ++ "\"") ≠ "*" := by
  intro h
  have hd := congrArg String.data h
  rw [data_weak_quoted, show ("*" : String).data = ['*'] from rfl] at hd
  have hh := congrArg List.head? hd
  simp at hh

theorem containsComma_quoted (x : String) (h : ¬ (',' ∈ x.data)) :
    containsComma ("\"" ++ x ++ "\"") = false := by
  unfold containsComma
  rw [data_quoted]
  simp [h]

theorem containsComma_weak_quoted (x : String) (h : ¬ (',' ∈ x.data)) :
    containsComma ("W/\"" ++ x ++ "\"") = false := by
  unfold containsComma
  rw [data_weak_quoted]
  simp [h]

/-- Single-tag characterization of `anyETagMatches`: the wildcard, or
normalized (case-insensitive) equality. -/
theorem anyETagMatches_singleton (c s : String) :
    anyETagMatches [c] s
      = (decide (c = "*") || decide (normalizeETag c = normalizeETag s)) := by
  unfold anyETagMatches
  by_cases h : c = "*" <;> simp [h]

/-- Single-tag characterization of `compareETags`: away from the falsy,
wildcard and list cases it is exactly normalized (case-SENSITIVE) equality. -/
theorem compareETags_single (c s : String) (h1 : c ≠ "") (h2 : s ≠ "")
    (h3 : c ≠ "*") (h4 : ¬ (',' ∈ c.data)) :
    compareETags c s = decide (normalize c = normalize s) := by
  unfold compareETags containsComma
  simp [h1, h2, h3, h4]

/-- C6 counterexample: the claim asserts that BOTH comparison entry points
strip the weak marker case-insensitively, but the public `compareETags`
normalizes with the case-SENSITIVE regex `/^W\//` (line 119): under the
claimed (case-insensitive) normalization the tags `w/"x"` and `"x"` are
normalized-equal, yet `compareETags` reports no match. -/
theorem c6_counterexample :
    normalizeETag "w/\"x\"" = normalizeETag "\"x\""
    ∧ compareETags "w/\"x\"" "\"x\"" = false := by
  decide

/-- C6 amended: both entry points compare tags by stripping a leading weak
marker and all quote characters and testing exact equality of the remaining
identifiers, and weak-comparison symmetry for `"x"` versus `W/"x"` holds in
both; but only the pipeline's `anyETagMatches` strips the marker
case-insensitively (accepting `w/` as well), while the public `compareETags`
strips only the uppercase `W/`. -/
theorem c6_amended_normalized_equality :
    (∀ x : String,
      anyETagMatches ["\"" ++ x ++ "\""] ("W/\"" ++ x ++ "\"") = true
      ∧ anyETagMatches ["W/\"" ++ x ++ "\""] ("\"" ++ x ++ "\"") = true
      ∧ anyETagMatches ["w/\"" ++ x ++ "\""] ("\"" ++ x ++ "\"") = true)
    ∧ (∀ x : String, ¬ (',' ∈ x.data) →
      compareETags ("\"" ++ x ++ "\"") ("W/\"" ++ x ++ "\"") = true
      ∧ compareETags ("W/\"" ++ x ++ "\"") ("\"" ++ x ++ "\"") = true)
    ∧ (∀ c s : String, anyETagMatches [c] s
        = (decide (c = "*") || decide (normalizeETag c = normalizeETag s)))
    ∧ (∀ c s : String, c ≠ "" → s ≠ "" → c ≠ "*" → ¬ (',' ∈ c.data) →
        compareETags c s = decide (normalize c = normalize s)) := by
  refine ⟨?_, ?_, anyETagMatches_singleton, compareETags_single⟩
  · intro x
    refine ⟨?_, ?_, ?_⟩
    · rw [anyETagMatches_singleton, normalizeETag_quoted, normalizeETag_weak_quoted]
      simp [quoted_ne_star]
    · rw [anyETagMatches_singleton, normalizeETag_quoted, normalizeETag_weak_quoted]
      simp [weak_quoted_ne_star]
    · rw [anyETagMatches_singleton, normalizeETag_quoted, normalizeETag_weak_lower_quoted]
      simp
  · intro x hx
    constructor
    · rw [compareETags_single _ _ (quoted_ne_empty x) (weak_quoted_ne_empty x)
        (quoted_ne_star x) (by rw [data_quoted]; simp [hx])]
      rw [normalize_quoted, normalize_weak_quoted]
      simp
    · rw [compareETags_single _ _ (weak_quoted_ne_empty x) (quoted_ne_empty x)
        (weak_quoted_ne_star x) (by rw [data_weak_quoted]; simp [hx])]
      rw [normalize_quoted, normalize_weak_quoted]
      simp

/-- C6 witness: both entry points match `"abc"` against `W/"abc"` at the
concrete identifier `abc`. -/
theorem c6_witness :
    anyETagMatches ["\"abc\""] "W/\"abc\"" = true
    ∧ compareETags "\"abc\"" "W/\"abc\"" = true := by
  refine ⟨?_, ?_⟩
  · have h := (c6_amended_normalized_equality.1 "abc").1
    simpa using h
  · have h := (c6_amended_normalized_equality.2.1 "abc" (by decide)).1
    simpa using h

/-- C7 counterexample: the claim's clause "an empty raw value never matches
any server tag" fails: the empty raw value decomposes into the single element
`""`, which IS normalized-equal to any server tag whose normalized form is
empty, such as `""` (a pair of quotes), so the comparator matches. -/
theorem c7_counterexample :
    splitClientETags "" = [""] ∧ rawAnyMatches "" "\"\"" = true := by
  decide

/-- C7 amended: the comparator returns true iff the comma-separated,
whitespace-trimmed decomposition of the raw value contains an element equal
to the literal `*` or normalized-equal to the server tag; a lone `*` always
matches; and an empty raw value never matches a server tag whose normalized
form is non-empty (in particular any generated fingerprint with a non-empty
digest), though it does match server tags normalizing to the empty string. -/
theorem c7_match_characterization :
    (∀ raw s : String, rawAnyMatches raw s = true ↔
      ∃ t ∈ splitClientETags raw,
        t = "*" ∨ normalizeETag t = normalizeETag s)
    ∧ (∀ s : String, rawAnyMatches "*" s = true)
    ∧ (∀ s : String, normalizeETag s ≠ "" → rawAnyMatches "" s = false) := by
  refine ⟨?_, ?_, ?_⟩
  · intro raw s
    unfold rawAnyMatches anyETagMatches
    rw [List.any_eq_true]
    constructor
    · rintro ⟨t, ht, hp⟩
      refine ⟨t, ht, ?_⟩
      by_cases hstar : t = "*"
      · exact Or.inl hstar
      · simp [hstar] at hp
        exact Or.inr hp
    · rintro ⟨t, ht, hstar | heq⟩
      · exact ⟨t, ht, by simp [hstar]⟩
      · refine ⟨t, ht, ?_⟩
        by_cases hstar : t = "*" <;> simp [hstar, heq]
  · intro s
    have hsplit : splitClientETags "*" = ["*"] := by decide
    unfold rawAnyMatches
    rw [hsplit, anyETagMatches_singleton]
    simp
  · intro s hs
    have hsplit : splitClientETags "" = [""] := by decide
    unfold rawAnyMatches
    rw [hsplit, anyETagMatches_singleton]
    have hempty : normalizeETag "" = "" := by decide
    simp [hempty, Ne.symm hs]

/-- C7 witness: the wildcard matches a concrete tag, the list form matches on
its second element, and the empty raw value does not match the concrete
fingerprint `"abc"` (whose normalized form `abc` is non-empty). -/
theorem c7_witness :
    rawAnyMatches "*" "\"zz\"" = true
    ∧ rawAnyMatches "" "\"abc\"" = false
    ∧ (rawAnyMatches "\"a\", \"b\"" "\"b\"" = true ↔
        ∃ t ∈ splitClientETags "\"a\", \"b\"",
          t = "*" ∨ normalizeETag t = normalizeETag "\"b\"") :=
  ⟨c7_match_characterization.2.1 "\"zz\"",
   c7_match_characterization.2.2 "\"abc\"" (by decide),
   c7_match_characterization.1 "\"a\", \"b\"" "\"b\""⟩

/-- C8: whenever the validation outcome is `NotModified`, the resulting
response has status 304, a cleared (null) body, and neither a `content-type`
nor a `content-length` header. -/
theorem c8_not_modified_rewrites (env : ValidationEnv) (ctx : HttpContext)
    (cv : ClientValidation)
    (h : (handleCacheValidation env ctx cv).1 = ValidationOutcome.NotModified) :
    (handleCacheValidation env ctx cv).2.status = 304
    ∧ (handleCacheValidation env ctx cv).2.body = none
    ∧ headerGet (handleCacheValidation env ctx cv).2.headers "content-type" = none
    ∧ headerGet (handleCacheValidation env ctx cv).2.headers "content-length" = none := by
  rcases handleCacheValidation_cases env ctx cv with hc | hc
  · rw [hc] at h
    exact absurd h (by simp)
  · rw [hc]
    refine ⟨rfl, rfl, ?_, ?_⟩
    · show headerGet (sendNotModified (setResponseETag env ctx)).headers "content-type" = none
      unfold sendNotModified
      dsimp only
      rw [headerGet_remove_ne _ "content-length" "content-type" (by decide),
        headerGet_remove_self]
    · show headerGet (sendNotModified (setResponseETag env ctx)).headers "content-length" = none
      unfold sendNotModified
      dsimp only
      rw [headerGet_remove_self]

/-- C8 witness: the concrete matching request is rewritten to a bodyless 304
without entity headers. -/
theorem c8_witness :
    (handleCacheValidation sampleEnv ctxW cvW).2.status = 304
    ∧ (handleCacheValidation sampleEnv ctxW cvW).2.body = none
    ∧ headerGet (handleCacheValidation sampleEnv ctxW cvW).2.headers "content-type" = none
    ∧ headerGet (handleCacheValidation sampleEnv ctxW cvW).2.headers "content-length" = none :=
  c8_not_modified_rewrites sampleEnv ctxW cvW (by decide)

/-- C9: fingerprint generation is deterministic — two calls of `generateETag`
with identical body content, algorithm and strength produce identical
fingerprint strings (for any hash function supplied for the abstracted digest
step). -/
theorem c9_generate_deterministic
    (hashHex : EntityTagAlgorithm → Option String → String)
    (b1 b2 : Option String) (a1 a2 : EntityTagAlgorithm)
    (s1 s2 : EntityTagStrength) (hb : b1 = b2) (ha : a1 = a2) (hs : s1 = s2) :
    generateETag hashHex b1 a1 s1 = generateETag hashHex b2 a2 s2 := by
  rw [hb, ha, hs]

/-- C9 witness: two generations for the body `hello` with sha256/strong agree. -/
theorem c9_witness :
    generateETag sampleEnv.hashHex (some "hello") EntityTagAlgorithm.sha256
        EntityTagStrength.strong
      = generateETag sampleEnv.hashHex (some "hello") EntityTagAlgorithm.sha256
        EntityTagStrength.strong :=
  c9_generate_deterministic sampleEnv.hashHex (some "hello") (some "hello")
    EntityTagAlgorithm.sha256 EntityTagAlgorithm.sha256
    EntityTagStrength.strong EntityTagStrength.strong rfl rfl rfl

/-- C10: after a `NotModified` rewrite the `etag` header attached at the start
of validation is still present on the 304 response (bound to the generated
fingerprint), and `sendNotModified` changes only status, body and the
`content-type` / `content-length` headers: every other header and the request
method are untouched by the rewrite. -/
theorem c10_rewrite_frame (env : ValidationEnv) (ctx : HttpContext)
    (cv : ClientValidation)
    (h : (handleCacheValidation env ctx cv).1 = ValidationOutcome.NotModified) :
    headerGet (handleCacheValidation env ctx cv).2.headers "etag"
      = some (generateETag env.hashHex ctx.body env.algorithm env.strength)
    ∧ ∀ (c : HttpContext) (k : String),
        k ≠ "content-type" → k ≠ "content-length" →
        headerGet (sendNotModified c).headers k = headerGet c.headers k
        ∧ (sendNotModified c).method = c.method := by
  constructor
  · rcases handleCacheValidation_cases env ctx cv with hc | hc
    · rw [hc] at h
      exact absurd h (by simp)
    · rw [hc]
      show headerGet (sendNotModified (setResponseETag env ctx)).headers "etag" = _
      unfold sendNotModified
      dsimp only
      rw [headerGet_remove_ne _ "content-length" "etag" (by decide),
        headerGet_remove_ne _ "content-type" "etag" (by decide)]
      unfold setResponseETag
      dsimp only
      exact headerGet_set_self _ _ _
  · intro c k h1 h2
    refine ⟨?_, rfl⟩
    unfold sendNotModified
    dsimp only
    rw [headerGet_remove_ne _ "content-length" k h2,
      headerGet_remove_ne _ "content-type" k h1]

/-- C10 witness: on the concrete matching request the `etag` header survives
the rewrite, and an unrelated header (`x-powered-by`) and the method are
untouched by `sendNotModified`. -/
theorem c10_witness :
    headerGet (handleCacheValidation sampleEnv ctxW cvW).2.headers "etag"
      = some (generateETag sampleEnv.hashHex ctxW.body sampleEnv.algorithm
          sampleEnv.strength)
    ∧ headerGet (sendNotModified ctxW).headers "x-powered-by"
      = headerGet ctxW.headers "x-powered-by"
    ∧ (sendNotModified ctxW).method = ctxW.method := by
  obtain ⟨h1, h2⟩ := c10_rewrite_frame sampleEnv ctxW cvW (by decide)
  exact ⟨h1, (h2 ctxW "x-powered-by" (by decide) (by decide)).1,
    (h2 ctxW "x-powered-by" (by decide) (by decide)).2⟩

end Gland
